import Mathlib

/-!
Verification of the Grafana remote-Alertmanager forked coordinators
(`pkg/services/ngalert/remote`): the `RemoteSecondaryForkedAlertmanager`
(source in the repository) and the `RemotePrimaryForkedAlertmanager`
(modelled from the design document, since only its tests and callers are in
the repository snapshot).

The shallow embedding models each alerting engine by a per-call response
oracle (`EngineOracle`), a Go `error` by `Option Err` (`none` = `nil`),
`time.Time`/`time.Duration` by `Int`, and each coordinator method as a pure
function returning its result, the successor coordinator state, and the
trace of engine calls it performed (each tagged with the engine side and
the method with its forwarded arguments).  The goroutine spawned by the
secondary coordinator's `ApplyConfig` is joined (`wg.Wait`) before the
method returns and touches state disjoint from the local delegation, so it
is embedded as a sequential computation.
-/

/-- A Go `error` message; a Go `error` value is `Option Err` with `none` for `nil`. -/
abbrev Err := String

/-- Opaque payload of `models.AlertConfiguration`; the coordinators never inspect it. -/
structure AlertConfiguration where
  raw : Nat
deriving DecidableEq

/-- Opaque payload of `apimodels.PostableUserConfig`. -/
structure PostableUserConfig where
  raw : Nat
deriving DecidableEq

/-- Opaque payload of `apimodels.GettableStatus`. -/
structure GettableStatus where
  raw : Nat
deriving DecidableEq

/-- Opaque payload of `apimodels.PostableSilence`. -/
structure PostableSilence where
  raw : Nat
deriving DecidableEq

/-- Opaque payload of `apimodels.GettableSilence`. -/
structure GettableSilence where
  raw : Nat
deriving DecidableEq

/-- Opaque payload of `apimodels.GettableSilences`. -/
structure GettableSilences where
  raw : Nat
deriving DecidableEq

/-- Opaque payload of `apimodels.GettableAlerts`. -/
structure GettableAlerts where
  raw : Nat
deriving DecidableEq

/-- Opaque payload of `apimodels.AlertGroups`. -/
structure AlertGroups where
  raw : Nat
deriving DecidableEq

/-- Opaque payload of `apimodels.PostableAlerts`. -/
structure PostableAlerts where
  raw : Nat
deriving DecidableEq

/-- Opaque payload of `apimodels.Receiver`. -/
structure Receiver where
  raw : Nat
deriving DecidableEq

/-- Opaque payload of `apimodels.TestReceiversConfigBodyParams`. -/
structure TestReceiversConfigBodyParams where
  raw : Nat
deriving DecidableEq

/-- Opaque payload of `notifier.TestReceiversResult` (held behind a nilable pointer). -/
structure TestReceiversResult where
  raw : Nat
deriving DecidableEq

/-- Opaque payload of `apimodels.TestTemplatesConfigBodyParams`. -/
structure TestTemplatesConfigBodyParams where
  raw : Nat
deriving DecidableEq

/-- Opaque payload of `notifier.TestTemplatesResults` (held behind a nilable pointer). -/
structure TestTemplatesResults where
  raw : Nat
deriving DecidableEq

/-- Opaque payload of a concrete `log.Logger` implementation; a Go logger
interface value is `Option LoggerImpl` with `none` for `nil`. -/
structure LoggerImpl where
  raw : Nat
deriving DecidableEq

/-- An opaque reference (pointer identity) to an engine instance held by a coordinator. -/
abbrev EngineRef := Nat

/-- Which of the two wrapped engines a delegated call went to. -/
inductive Side where
  | internal
  | remote
deriving DecidableEq

/-- One engine-interface call, with the arguments the coordinator forwarded
(the `context.Context` argument is threaded through unchanged and omitted). -/
inductive MethodCall where
  | applyConfig (config : AlertConfiguration)
  | saveAndApplyConfig (config : PostableUserConfig)
  | saveAndApplyDefaultConfig
  | getStatus
  | createSilence (silence : Option PostableSilence)
  | deleteSilence (id : String)
  | getSilence (id : String)
  | listSilences (filter : List String)
  | getAlerts (active silenced inhibited : Bool) (filter : List String) (receiver : String)
  | getAlertGroups (active silenced inhibited : Bool) (filter : List String) (receiver : String)
  | putAlerts (alerts : PostableAlerts)
  | getReceivers
  | testReceivers (params : TestReceiversConfigBodyParams)
  | testTemplate (params : TestTemplatesConfigBodyParams)
  | cleanUp
  | stopAndWait
  | ready
  | compareAndSendConfiguration (config : AlertConfiguration)
  | compareAndSendState
deriving DecidableEq

/-- One call's responses from an engine implementing `notifier.Alertmanager`
together with the `remoteAlertmanager` extension (`CompareAndSendConfiguration`,
`CompareAndSendState`).  Each field gives the value the engine returns for
that method during the coordinator call under consideration. -/
structure EngineOracle where
  ApplyConfig : AlertConfiguration → Option Err
  SaveAndApplyConfig : PostableUserConfig → Option Err
  SaveAndApplyDefaultConfig : Option Err
  GetStatus : GettableStatus
  CreateSilence : Option PostableSilence → String × Option Err
  DeleteSilence : String → Option Err
  GetSilence : String → GettableSilence × Option Err
  ListSilences : List String → GettableSilences × Option Err
  GetAlerts : Bool → Bool → Bool → List String → String → GettableAlerts × Option Err
  GetAlertGroups : Bool → Bool → Bool → List String → String → AlertGroups × Option Err
  PutAlerts : PostableAlerts → Option Err
  GetReceivers : List Receiver × Option Err
  TestReceivers : TestReceiversConfigBodyParams → Option TestReceiversResult × Option Err
  TestTemplate : TestTemplatesConfigBodyParams → Option TestTemplatesResults × Option Err
  Ready : Bool
  CompareAndSendConfiguration : AlertConfiguration → Option Err
  CompareAndSendState : Option Err

/-- The `RemoteSecondaryForkedAlertmanager` struct: a logger, the two engine
references, the last successful sync instant and the configured sync
interval (`time.Time`/`time.Duration` modelled as `Int`). -/
structure RemoteSecondaryForkedAlertmanager where
  log : Option LoggerImpl
  internal : EngineRef
  remote : EngineRef
  lastSync : Int
  syncInterval : Int
deriving DecidableEq

/-- The `RemoteSecondaryConfig` struct: sync interval and logger. -/
structure RemoteSecondaryConfig where
  SyncInterval : Int
  Logger : Option LoggerImpl
deriving DecidableEq

/-- `RemoteSecondaryConfig.Validate`: rejects a nil logger. -/
def RemoteSecondaryConfig.Validate (c : RemoteSecondaryConfig) : Option Err :=
  if c.Logger = none then some "logger cannot be nil" else none

/-- `NewRemoteSecondaryForkedAlertmanager`: validates the configuration and
builds the coordinator.  The Go struct literal leaves `lastSync` at the
`time.Time` zero value, modelled as `0`.  The Go `(*T, error)` pair is
modelled as `Except Err T`. -/
def NewRemoteSecondaryForkedAlertmanager (cfg : RemoteSecondaryConfig)
    (internal remote : EngineRef) : Except Err RemoteSecondaryForkedAlertmanager :=
  match cfg.Validate with
  | some e => .error e
  | none =>
      .ok { log := cfg.Logger
            internal := internal
            remote := remote
            lastSync := 0
            syncInterval := cfg.SyncInterval }

/-- Result of one coordinator method call in the shallow embedding: the Go
return value, the coordinator state after the call, and the engine calls
performed during it.  Calls issued by the `ApplyConfig` goroutine are listed
before the local delegation; the two run concurrently but are joined before
the method returns and touch disjoint data. -/
structure MOutcome (α : Type) where
  val : α
  fam2 : RemoteSecondaryForkedAlertmanager
  trace : List (Side × MethodCall)
deriving DecidableEq

/-- The methods the remote engine was asked to perform, in order. -/
def MOutcome.remoteCalls {α : Type} (o : MOutcome α) : List MethodCall :=
  (o.trace.filter (fun c => c.1 = Side.remote)).map (fun c => c.2)

/-- The methods the internal engine was asked to perform, in order. -/
def MOutcome.internalCalls {α : Type} (o : MOutcome α) : List MethodCall :=
  (o.trace.filter (fun c => c.1 = Side.internal)).map (fun c => c.2)

/-- `RemoteSecondaryForkedAlertmanager.ApplyConfig`.  The goroutine first asks
the remote engine for readiness; if not ready it delegates `ApplyConfig` to
the remote engine (readiness/bootstrap probe), setting `lastSync := now` on
success; if ready and `now - lastSync ≥ syncInterval` it calls
`CompareAndSendConfiguration` then `CompareAndSendState`, setting
`lastSync := now` only when both return nil; otherwise it does nothing.
The method's return value is exactly the internal engine's `ApplyConfig`
error.  `now` models the call's `time.Now()`. -/
def RemoteSecondaryForkedAlertmanager.ApplyConfig
    (fam : RemoteSecondaryForkedAlertmanager) (internal remote : EngineOracle)
    (now : Int) (config : AlertConfiguration) : MOutcome (Option Err) :=
  let sync : RemoteSecondaryForkedAlertmanager × List (Side × MethodCall) :=
    if !remote.Ready then
      match remote.ApplyConfig config with
      | some _ => (fam, [(.remote, .ready), (.remote, .applyConfig config)])
      | none => ({ fam with lastSync := now }, [(.remote, .ready), (.remote, .applyConfig config)])
    else if now - fam.lastSync ≥ fam.syncInterval then
      let cfgErr := remote.CompareAndSendConfiguration config
      let stateErr := remote.CompareAndSendState
      let fam2 := if cfgErr = none ∧ stateErr = none then { fam with lastSync := now } else fam
      (fam2, [(.remote, .ready), (.remote, .compareAndSendConfiguration config),
              (.remote, .compareAndSendState)])
    else
      (fam, [(.remote, .ready)])
  { val := internal.ApplyConfig config
    fam2 := sync.1
    trace := sync.2 ++ [(.internal, .applyConfig config)] }

/-- `RemoteSecondaryForkedAlertmanager.SaveAndApplyConfig`: internal engine only. -/
def RemoteSecondaryForkedAlertmanager.SaveAndApplyConfig
    (fam : RemoteSecondaryForkedAlertmanager) (internal remote : EngineOracle)
    (config : PostableUserConfig) : MOutcome (Option Err) :=
  { val := internal.SaveAndApplyConfig config
    fam2 := fam
    trace := [(.internal, .saveAndApplyConfig config)] }

/-- `RemoteSecondaryForkedAlertmanager.SaveAndApplyDefaultConfig`: internal engine only. -/
def RemoteSecondaryForkedAlertmanager.SaveAndApplyDefaultConfig
    (fam : RemoteSecondaryForkedAlertmanager) (internal remote : EngineOracle) :
    MOutcome (Option Err) :=
  { val := internal.SaveAndApplyDefaultConfig
    fam2 := fam
    trace := [(.internal, .saveAndApplyDefaultConfig)] }

/-- `RemoteSecondaryForkedAlertmanager.GetStatus`: internal engine only. -/
def RemoteSecondaryForkedAlertmanager.GetStatus
    (fam : RemoteSecondaryForkedAlertmanager) (internal remote : EngineOracle) :
    MOutcome GettableStatus :=
  { val := internal.GetStatus
    fam2 := fam
    trace := [(.internal, .getStatus)] }

/-- `RemoteSecondaryForkedAlertmanager.CreateSilence`: internal engine only. -/
def RemoteSecondaryForkedAlertmanager.CreateSilence
    (fam : RemoteSecondaryForkedAlertmanager) (internal remote : EngineOracle)
    (silence : Option PostableSilence) : MOutcome (String × Option Err) :=
  { val := internal.CreateSilence silence
    fam2 := fam
    trace := [(.internal, .createSilence silence)] }

/-- `RemoteSecondaryForkedAlertmanager.DeleteSilence`: internal engine only. -/
def RemoteSecondaryForkedAlertmanager.DeleteSilence
    (fam : RemoteSecondaryForkedAlertmanager) (internal remote : EngineOracle)
    (id : String) : MOutcome (Option Err) :=
  { val := internal.DeleteSilence id
    fam2 := fam
    trace := [(.internal, .deleteSilence id)] }

/-- `RemoteSecondaryForkedAlertmanager.GetSilence`: internal engine only. -/
def RemoteSecondaryForkedAlertmanager.GetSilence
    (fam : RemoteSecondaryForkedAlertmanager) (internal remote : EngineOracle)
    (id : String) : MOutcome (GettableSilence × Option Err) :=
  { val := internal.GetSilence id
    fam2 := fam
    trace := [(.internal, .getSilence id)] }

/-- `RemoteSecondaryForkedAlertmanager.ListSilences`: internal engine only. -/
def RemoteSecondaryForkedAlertmanager.ListSilences
    (fam : RemoteSecondaryForkedAlertmanager) (internal remote : EngineOracle)
    (filter : List String) : MOutcome (GettableSilences × Option Err) :=
  { val := internal.ListSilences filter
    fam2 := fam
    trace := [(.internal, .listSilences filter)] }

/-- `RemoteSecondaryForkedAlertmanager.GetAlerts`: internal engine only. -/
def RemoteSecondaryForkedAlertmanager.GetAlerts
    (fam : RemoteSecondaryForkedAlertmanager) (internal remote : EngineOracle)
    (active silenced inhibited : Bool) (filter : List String) (receiver : String) :
    MOutcome (GettableAlerts × Option Err) :=
  { val := internal.GetAlerts active silenced inhibited filter receiver
    fam2 := fam
    trace := [(.internal, .getAlerts active silenced inhibited filter receiver)] }

/-- `RemoteSecondaryForkedAlertmanager.GetAlertGroups`: internal engine only. -/
def RemoteSecondaryForkedAlertmanager.GetAlertGroups
    (fam : RemoteSecondaryForkedAlertmanager) (internal remote : EngineOracle)
    (active silenced inhibited : Bool) (filter : List String) (receiver : String) :
    MOutcome (AlertGroups × Option Err) :=
  { val := internal.GetAlertGroups active silenced inhibited filter receiver
    fam2 := fam
    trace := [(.internal, .getAlertGroups active silenced inhibited filter receiver)] }

/-- `RemoteSecondaryForkedAlertmanager.PutAlerts`: internal engine only. -/
def RemoteSecondaryForkedAlertmanager.PutAlerts
    (fam : RemoteSecondaryForkedAlertmanager) (internal remote : EngineOracle)
    (alerts : PostableAlerts) : MOutcome (Option Err) :=
  { val := internal.PutAlerts alerts
    fam2 := fam
    trace := [(.internal, .putAlerts alerts)] }

/-- `RemoteSecondaryForkedAlertmanager.GetReceivers`: internal engine only. -/
def RemoteSecondaryForkedAlertmanager.GetReceivers
    (fam : RemoteSecondaryForkedAlertmanager) (internal remote : EngineOracle) :
    MOutcome (List Receiver × Option Err) :=
  { val := internal.GetReceivers
    fam2 := fam
    trace := [(.internal, .getReceivers)] }

/-- `RemoteSecondaryForkedAlertmanager.TestReceivers`: internal engine only. -/
def RemoteSecondaryForkedAlertmanager.TestReceivers
    (fam : RemoteSecondaryForkedAlertmanager) (internal remote : EngineOracle)
    (c : TestReceiversConfigBodyParams) :
    MOutcome (Option TestReceiversResult × Option Err) :=
  { val := internal.TestReceivers c
    fam2 := fam
    trace := [(.internal, .testReceivers c)] }

/-- `RemoteSecondaryForkedAlertmanager.TestTemplate`: internal engine only. -/
def RemoteSecondaryForkedAlertmanager.TestTemplate
    (fam : RemoteSecondaryForkedAlertmanager) (internal remote : EngineOracle)
    (c : TestTemplatesConfigBodyParams) :
    MOutcome (Option TestTemplatesResults × Option Err) :=
  { val := internal.TestTemplate c
    fam2 := fam
    trace := [(.internal, .testTemplate c)] }

/-- `RemoteSecondaryForkedAlertmanager.CleanUp`: internal engine only; no
cleanup to do in the remote Alertmanager. -/
def RemoteSecondaryForkedAlertmanager.CleanUp
    (fam : RemoteSecondaryForkedAlertmanager) (internal remote : EngineOracle) :
    MOutcome Unit :=
  { val := ()
    fam2 := fam
    trace := [(.internal, .cleanUp)] }

/-- `RemoteSecondaryForkedAlertmanager.StopAndWait`: stops the internal engine,
then the remote engine. -/
def RemoteSecondaryForkedAlertmanager.StopAndWait
    (fam : RemoteSecondaryForkedAlertmanager) (internal remote : EngineOracle) :
    MOutcome Unit :=
  { val := ()
    fam2 := fam
    trace := [(.internal, .stopAndWait), (.remote, .stopAndWait)] }

/-- `RemoteSecondaryForkedAlertmanager.Ready`: only the internal engine's
readiness matters. -/
def RemoteSecondaryForkedAlertmanager.Ready
    (fam : RemoteSecondaryForkedAlertmanager) (internal remote : EngineOracle) :
    MOutcome Bool :=
  { val := internal.Ready
    fam2 := fam
    trace := [(.internal, .ready)] }

/-- Modelled from the spec: the `RemotePrimaryForkedAlertmanager` struct itself
is not part of the repository snapshot (only its tests and its constructor
call site are).  Per the design document the primary-mode coordinator owns
the two engine references and no additional mutable state. -/
structure RemotePrimaryForkedAlertmanager where
  internal : EngineRef
  remote : EngineRef
deriving DecidableEq

/-- Result of one primary-mode coordinator method call: the Go return value
and the engine calls performed.  The primary coordinator is stateless beyond
delegation, so no successor state is carried. -/
structure POutcome (α : Type) where
  val : α
  trace : List (Side × MethodCall)
deriving DecidableEq

/-- The methods the remote engine was asked to perform, in order. -/
def POutcome.remoteCalls {α : Type} (o : POutcome α) : List MethodCall :=
  (o.trace.filter (fun c => c.1 = Side.remote)).map (fun c => c.2)

/-- The methods the internal engine was asked to perform, in order. -/
def POutcome.internalCalls {α : Type} (o : POutcome α) : List MethodCall :=
  (o.trace.filter (fun c => c.1 = Side.internal)).map (fun c => c.2)

/-- Modelled from the spec: primary-mode `ApplyConfig` delegates to the remote
engine only, with no background sync (the method body is missing from the
snapshot). -/
def RemotePrimaryForkedAlertmanager.ApplyConfig
    (fam : RemotePrimaryForkedAlertmanager) (internal remote : EngineOracle)
    (config : AlertConfiguration) : POutcome (Option Err) :=
  { val := remote.ApplyConfig config
    trace := [(.remote, .applyConfig config)] }

/-- Modelled from the spec: primary-mode `SaveAndApplyConfig` delegates to the
remote engine only (the method body is missing from the snapshot). -/
def RemotePrimaryForkedAlertmanager.SaveAndApplyConfig
    (fam : RemotePrimaryForkedAlertmanager) (internal remote : EngineOracle)
    (config : PostableUserConfig) : POutcome (Option Err) :=
  { val := remote.SaveAndApplyConfig config
    trace := [(.remote, .saveAndApplyConfig config)] }

/-- Modelled from the spec: primary-mode `SaveAndApplyDefaultConfig` delegates
to the remote engine only (the method body is missing from the snapshot). -/
def RemotePrimaryForkedAlertmanager.SaveAndApplyDefaultConfig
    (fam : RemotePrimaryForkedAlertmanager) (internal remote : EngineOracle) :
    POutcome (Option Err) :=
  { val := remote.SaveAndApplyDefaultConfig
    trace := [(.remote, .saveAndApplyDefaultConfig)] }

/-- Modelled from the spec: primary-mode `GetStatus` delegates to the remote
engine only (the method body is missing from the snapshot). -/
def RemotePrimaryForkedAlertmanager.GetStatus
    (fam : RemotePrimaryForkedAlertmanager) (internal remote : EngineOracle) :
    POutcome GettableStatus :=
  { val := remote.GetStatus
    trace := [(.remote, .getStatus)] }

/-- Modelled from the spec: primary-mode `CreateSilence` delegates to the
remote engine only (the method body is missing from the snapshot). -/
def RemotePrimaryForkedAlertmanager.CreateSilence
    (fam : RemotePrimaryForkedAlertmanager) (internal remote : EngineOracle)
    (silence : Option PostableSilence) : POutcome (String × Option Err) :=
  { val := remote.CreateSilence silence
    trace := [(.remote, .createSilence silence)] }

/-- Modelled from the spec: primary-mode `DeleteSilence` delegates to the
remote engine only (the method body is missing from the snapshot). -/
def RemotePrimaryForkedAlertmanager.DeleteSilence
    (fam : RemotePrimaryForkedAlertmanager) (internal remote : EngineOracle)
    (id : String) : POutcome (Option Err) :=
  { val := remote.DeleteSilence id
    trace := [(.remote, .deleteSilence id)] }

/-- Modelled from the spec: primary-mode `GetSilence` delegates to the remote
engine only (the method body is missing from the snapshot). -/
def RemotePrimaryForkedAlertmanager.GetSilence
    (fam : RemotePrimaryForkedAlertmanager) (internal remote : EngineOracle)
    (id : String) : POutcome (GettableSilence × Option Err) :=
  { val := remote.GetSilence id
    trace := [(.remote, .getSilence id)] }

/-- Modelled from the spec: primary-mode `ListSilences` delegates to the remote
engine only (the method body is missing from the snapshot). -/
def RemotePrimaryForkedAlertmanager.ListSilences
    (fam : RemotePrimaryForkedAlertmanager) (internal remote : EngineOracle)
    (filter : List String) : POutcome (GettableSilences × Option Err) :=
  { val := remote.ListSilences filter
    trace := [(.remote, .listSilences filter)] }

/-- Modelled from the spec: primary-mode `GetAlerts` delegates to the remote
engine only (the method body is missing from the snapshot). -/
def RemotePrimaryForkedAlertmanager.GetAlerts
    (fam : RemotePrimaryForkedAlertmanager) (internal remote : EngineOracle)
    (active silenced inhibited : Bool) (filter : List String) (receiver : String) :
    POutcome (GettableAlerts × Option Err) :=
  { val := remote.GetAlerts active silenced inhibited filter receiver
    trace := [(.remote, .getAlerts active silenced inhibited filter receiver)] }

/-- Modelled from the spec: primary-mode `GetAlertGroups` delegates to the
remote engine only (the method body is missing from the snapshot). -/
def RemotePrimaryForkedAlertmanager.GetAlertGroups
    (fam : RemotePrimaryForkedAlertmanager) (internal remote : EngineOracle)
    (active silenced inhibited : Bool) (filter : List String) (receiver : String) :
    POutcome (AlertGroups × Option Err) :=
  { val := remote.GetAlertGroups active silenced inhibited filter receiver
    trace := [(.remote, .getAlertGroups active silenced inhibited filter receiver)] }

/-- Modelled from the spec: primary-mode `PutAlerts` delegates to the remote
engine only (the method body is missing from the snapshot). -/
def RemotePrimaryForkedAlertmanager.PutAlerts
    (fam : RemotePrimaryForkedAlertmanager) (internal remote : EngineOracle)
    (alerts : PostableAlerts) : POutcome (Option Err) :=
  { val := remote.PutAlerts alerts
    trace := [(.remote, .putAlerts alerts)] }

/-- Modelled from the spec: primary-mode `GetReceivers` delegates to the remote
engine only (the method body is missing from the snapshot). -/
def RemotePrimaryForkedAlertmanager.GetReceivers
    (fam : RemotePrimaryForkedAlertmanager) (internal remote : EngineOracle) :
    POutcome (List Receiver × Option Err) :=
  { val := remote.GetReceivers
    trace := [(.remote, .getReceivers)] }

/-- Modelled from the spec: primary-mode `TestReceivers` delegates to the
remote engine only (the method body is missing from the snapshot). -/
def RemotePrimaryForkedAlertmanager.TestReceivers
    (fam : RemotePrimaryForkedAlertmanager) (internal remote : EngineOracle)
    (c : TestReceiversConfigBodyParams) :
    POutcome (Option TestReceiversResult × Option Err) :=
  { val := remote.TestReceivers c
    trace := [(.remote, .testReceivers c)] }

/-- Modelled from the spec: primary-mode `TestTemplate` delegates to the remote
engine only (the method body is missing from the snapshot). -/
def RemotePrimaryForkedAlertmanager.TestTemplate
    (fam : RemotePrimaryForkedAlertmanager) (internal remote : EngineOracle)
    (c : TestTemplatesConfigBodyParams) :
    POutcome (Option TestTemplatesResults × Option Err) :=
  { val := remote.TestTemplate c
    trace := [(.remote, .testTemplate c)] }

/-- Modelled from the spec: primary-mode `CleanUp` delegates to the internal
engine only — local housekeeping is always local (the method body is missing
from the snapshot). -/
def RemotePrimaryForkedAlertmanager.CleanUp
    (fam : RemotePrimaryForkedAlertmanager) (internal remote : EngineOracle) :
    POutcome Unit :=
  { val := ()
    trace := [(.internal, .cleanUp)] }

/-- Modelled from the spec: primary-mode `StopAndWait` stops both engines
unconditionally (the method body is missing from the snapshot). -/
def RemotePrimaryForkedAlertmanager.StopAndWait
    (fam : RemotePrimaryForkedAlertmanager) (internal remote : EngineOracle) :
    POutcome Unit :=
  { val := ()
    trace := [(.internal, .stopAndWait), (.remote, .stopAndWait)] }

/-- Modelled from the spec: primary-mode `Ready` returns true only if both
engines report ready (the method body is missing from the snapshot). -/
def RemotePrimaryForkedAlertmanager.Ready
    (fam : RemotePrimaryForkedAlertmanager) (internal remote : EngineOracle) :
    POutcome Bool :=
  { val := internal.Ready && remote.Ready
    trace := [(.internal, .ready), (.remote, .ready)] }

/-- An engine-oracle value on which every method succeeds; concrete
instantiations for witness theorems override individual fields. -/
def okOracle : EngineOracle :=
  { ApplyConfig := fun _ => none
    SaveAndApplyConfig := fun _ => none
    SaveAndApplyDefaultConfig := none
    GetStatus := ⟨0⟩
    CreateSilence := fun _ => ("", none)
    DeleteSilence := fun _ => none
    GetSilence := fun _ => (⟨0⟩, none)
    ListSilences := fun _ => (⟨0⟩, none)
    GetAlerts := fun _ _ _ _ _ => (⟨0⟩, none)
    GetAlertGroups := fun _ _ _ _ _ => (⟨0⟩, none)
    PutAlerts := fun _ => none
    GetReceivers := ([], none)
    TestReceivers := fun _ => (none, none)
    TestTemplate := fun _ => (none, none)
    Ready := true
    CompareAndSendConfiguration := fun _ => none
    CompareAndSendState := none }

/-- A concrete secondary coordinator used by witness theorems. -/
def famW : RemoteSecondaryForkedAlertmanager :=
  { log := some ⟨0⟩, internal := 0, remote := 1, lastSync := 0, syncInterval := 5 }


/-- A concrete alert configuration used by witness theorems. -/
def cfgW : AlertConfiguration := ⟨0⟩

/-- An oracle whose `CompareAndSendConfiguration` fails while everything else
succeeds; used by witness theorems. -/
def cfgFailOracle : EngineOracle :=
  { okOracle with CompareAndSendConfiguration := fun _ => some "config send failed" }

/-- An oracle that reports not-ready and succeeds on everything; used by
witness theorems. -/
def notReadyOracle : EngineOracle :=
  { okOracle with Ready := false }

/-- Helper: when the remote engine is ready and the interval has elapsed, the
remote engine receives exactly the readiness probe followed by the two
compare-and-send calls. -/
theorem applyConfig_due_remoteCalls
    (fam : RemoteSecondaryForkedAlertmanager) (internal remote : EngineOracle)
    (now : Int) (config : AlertConfiguration)
    (hready : remote.Ready = true)
    (hdue : fam.syncInterval ≤ now - fam.lastSync) :
    (fam.ApplyConfig internal remote now config).remoteCalls =
      [MethodCall.ready, MethodCall.compareAndSendConfiguration config,
        MethodCall.compareAndSendState] := by
  unfold RemoteSecondaryForkedAlertmanager.ApplyConfig
  rw [hready]
  simp [MOutcome.remoteCalls, hdue]

/-- Helper: when the remote engine is ready and the interval has elapsed, the
post-state advances `lastSync` to `now` exactly when both compare-and-send
calls return nil. -/
theorem applyConfig_due_fam2
    (fam : RemoteSecondaryForkedAlertmanager) (internal remote : EngineOracle)
    (now : Int) (config : AlertConfiguration)
    (hready : remote.Ready = true)
    (hdue : fam.syncInterval ≤ now - fam.lastSync) :
    (fam.ApplyConfig internal remote now config).fam2 =
      (if remote.CompareAndSendConfiguration config = none ∧
          remote.CompareAndSendState = none
        then { fam with lastSync := now } else fam) := by
  unfold RemoteSecondaryForkedAlertmanager.ApplyConfig
  rw [hready]
  simp [hdue]

/-- C2: in secondary mode, whenever the remote engine reports ready and the
time since `lastSync` is at least the configured sync interval, both
`CompareAndSendConfiguration` and `CompareAndSendState` are invoked on the
remote engine — the second even when the first fails — and `lastSync` is set
to the current time exactly when both calls return success. -/
theorem ApplyConfig_due_sync_runs_both
    (fam : RemoteSecondaryForkedAlertmanager) (internal remote : EngineOracle)
    (now : Int) (config : AlertConfiguration)
    (hready : remote.Ready = true)
    (hdue : fam.syncInterval ≤ now - fam.lastSync) :
    (fam.ApplyConfig internal remote now config).remoteCalls =
      [MethodCall.ready, MethodCall.compareAndSendConfiguration config,
        MethodCall.compareAndSendState] ∧
    (fam.ApplyConfig internal remote now config).fam2 =
      (if remote.CompareAndSendConfiguration config = none ∧
          remote.CompareAndSendState = none
        then { fam with lastSync := now } else fam) :=
  ⟨applyConfig_due_remoteCalls fam internal remote now config hready hdue,
    applyConfig_due_fam2 fam internal remote now config hready hdue⟩

/-- Witness for C2 at a concrete input: interval 5, last sync 0, call at time
7, configuration upload failing. -/
theorem ApplyConfig_due_sync_runs_both_witness :
    cfgFailOracle.Ready = true ∧
    famW.syncInterval ≤ (7 : Int) - famW.lastSync ∧
    ((famW.ApplyConfig okOracle cfgFailOracle 7 cfgW).remoteCalls =
        [MethodCall.ready, MethodCall.compareAndSendConfiguration cfgW,
          MethodCall.compareAndSendState] ∧
      (famW.ApplyConfig okOracle cfgFailOracle 7 cfgW).fam2 =
        (if cfgFailOracle.CompareAndSendConfiguration cfgW = none ∧
            cfgFailOracle.CompareAndSendState = none
          then { famW with lastSync := 7 } else famW)) :=
  ⟨rfl, by decide,
    ApplyConfig_due_sync_runs_both famW okOracle cfgFailOracle 7 cfgW rfl (by decide)⟩

/-- C3: in secondary mode, when the remote engine reports not-ready, the
remote engine receives exactly one `ApplyConfig` call (after the readiness
probe) and no compare-and-send calls; `lastSync` becomes `now` exactly when
that probe succeeds and is unchanged otherwise. -/
theorem ApplyConfig_not_ready_probes_remote_once
    (fam : RemoteSecondaryForkedAlertmanager) (internal remote : EngineOracle)
    (now : Int) (config : AlertConfiguration)
    (hnotready : remote.Ready = false) :
    (fam.ApplyConfig internal remote now config).remoteCalls =
      [MethodCall.ready, MethodCall.applyConfig config] ∧
    (fam.ApplyConfig internal remote now config).fam2 =
      (if remote.ApplyConfig config = none
        then { fam with lastSync := now } else fam) := by
  unfold RemoteSecondaryForkedAlertmanager.ApplyConfig
  rw [hnotready]
  cases hac : remote.ApplyConfig config <;>
    simp [MOutcome.remoteCalls, hac]

/-- Witness for C3 at a concrete input: remote not ready, probe succeeding,
call at time 7. -/
theorem ApplyConfig_not_ready_probes_remote_once_witness :
    notReadyOracle.Ready = false ∧
    ((famW.ApplyConfig okOracle notReadyOracle 7 cfgW).remoteCalls =
        [MethodCall.ready, MethodCall.applyConfig cfgW] ∧
      (famW.ApplyConfig okOracle notReadyOracle 7 cfgW).fam2 =
        (if notReadyOracle.ApplyConfig cfgW = none
          then { famW with lastSync := 7 } else famW)) :=
  ⟨rfl, ApplyConfig_not_ready_probes_remote_once famW okOracle notReadyOracle 7 cfgW rfl⟩

/-- C4: in secondary mode, when the remote engine reports ready and the time
since `lastSync` is strictly below the sync interval, the remote engine
receives only the readiness probe — no compare-and-send and no remote
`ApplyConfig` — the coordinator state is unchanged, and only the internal
engine's `ApplyConfig` runs, its error being the returned value. -/
theorem ApplyConfig_too_soon_skips_remote_sync
    (fam : RemoteSecondaryForkedAlertmanager) (internal remote : EngineOracle)
    (now : Int) (config : AlertConfiguration)
    (hready : remote.Ready = true)
    (hsoon : now - fam.lastSync < fam.syncInterval) :
    (fam.ApplyConfig internal remote now config).remoteCalls = [MethodCall.ready] ∧
    (fam.ApplyConfig internal remote now config).fam2 = fam ∧
    (fam.ApplyConfig internal remote now config).internalCalls =
      [MethodCall.applyConfig config] ∧
    (fam.ApplyConfig internal remote now config).val = internal.ApplyConfig config := by
  unfold RemoteSecondaryForkedAlertmanager.ApplyConfig
  rw [hready]
  simp [MOutcome.remoteCalls, MOutcome.internalCalls, not_le.mpr hsoon]

/-- Witness for C4 at a concrete input: interval 5, last sync 0, call at time
2. -/
theorem ApplyConfig_too_soon_skips_remote_sync_witness :
    okOracle.Ready = true ∧
    (2 : Int) - famW.lastSync < famW.syncInterval ∧
    ((famW.ApplyConfig okOracle okOracle 2 cfgW).remoteCalls = [MethodCall.ready] ∧
      (famW.ApplyConfig okOracle okOracle 2 cfgW).fam2 = famW ∧
      (famW.ApplyConfig okOracle okOracle 2 cfgW).internalCalls =
        [MethodCall.applyConfig cfgW] ∧
      (famW.ApplyConfig okOracle okOracle 2 cfgW).val = okOracle.ApplyConfig cfgW) :=
  ⟨rfl, by decide,
    ApplyConfig_too_soon_skips_remote_sync famW okOracle okOracle 2 cfgW rfl (by decide)⟩

/-- C5: the value returned by the secondary coordinator's `ApplyConfig` is
exactly the internal engine's `ApplyConfig` error, for every readiness state
and every remote outcome. -/
theorem ApplyConfig_returns_exactly_local_error
    (fam : RemoteSecondaryForkedAlertmanager) (internal remote : EngineOracle)
    (now : Int) (config : AlertConfiguration) :
    (fam.ApplyConfig internal remote now config).val = internal.ApplyConfig config := rfl

/-- C1: in secondary mode, when the remote engine is ready, the sync is due
and exactly one of the two compare-and-send calls fails, the coordinator
state (in particular `lastSync`) is unchanged, so the next `ApplyConfig`
call with a ready remote engine and a not-earlier clock performs both
compare-and-send calls again, whatever the configured interval. -/
theorem ApplyConfig_partial_sync_failure_forces_retry
    (fam : RemoteSecondaryForkedAlertmanager)
    (internal internal2 remote remote2 : EngineOracle)
    (now now2 : Int) (config config2 : AlertConfiguration)
    (hready : remote.Ready = true)
    (hdue : fam.syncInterval ≤ now - fam.lastSync)
    (hone : (remote.CompareAndSendConfiguration config = none ∧
              remote.CompareAndSendState ≠ none) ∨
            (remote.CompareAndSendConfiguration config ≠ none ∧
              remote.CompareAndSendState = none))
    (hready2 : remote2.Ready = true)
    (hmono : now ≤ now2) :
    (fam.ApplyConfig internal remote now config).fam2 = fam ∧
    ((fam.ApplyConfig internal remote now config).fam2.ApplyConfig
        internal2 remote2 now2 config2).remoteCalls =
      [MethodCall.ready, MethodCall.compareAndSendConfiguration config2,
        MethodCall.compareAndSendState] := by
  have hnotboth : ¬(remote.CompareAndSendConfiguration config = none ∧
      remote.CompareAndSendState = none) := by
    rintro ⟨ha, hb⟩
    rcases hone with ⟨h1, h2⟩ | ⟨h1, h2⟩
    · exact h2 hb
    · exact h1 ha
  have hfam2 : (fam.ApplyConfig internal remote now config).fam2 = fam := by
    rw [applyConfig_due_fam2 fam internal remote now config hready hdue, if_neg hnotboth]
  refine ⟨hfam2, ?_⟩
  rw [hfam2]
  exact applyConfig_due_remoteCalls fam internal2 remote2 now2 config2 hready2 (by omega)

/-- Witness for C1 at a concrete input: interval 5, last sync 0, calls at
times 7 and 8, configuration upload failing while state upload succeeds. -/
theorem ApplyConfig_partial_sync_failure_forces_retry_witness :
    cfgFailOracle.Ready = true ∧
    famW.syncInterval ≤ (7 : Int) - famW.lastSync ∧
    ((cfgFailOracle.CompareAndSendConfiguration cfgW = none ∧
        cfgFailOracle.CompareAndSendState ≠ none) ∨
      (cfgFailOracle.CompareAndSendConfiguration cfgW ≠ none ∧
        cfgFailOracle.CompareAndSendState = none)) ∧
    (7 : Int) ≤ 8 ∧
    ((famW.ApplyConfig okOracle cfgFailOracle 7 cfgW).fam2 = famW ∧
      ((famW.ApplyConfig okOracle cfgFailOracle 7 cfgW).fam2.ApplyConfig
          okOracle cfgFailOracle 8 cfgW).remoteCalls =
        [MethodCall.ready, MethodCall.compareAndSendConfiguration cfgW,
          MethodCall.compareAndSendState]) :=
  ⟨rfl, by decide, Or.inr ⟨by decide, rfl⟩, by decide,
    ApplyConfig_partial_sync_failure_forces_retry famW okOracle okOracle
      cfgFailOracle cfgFailOracle 7 8 cfgW cfgW rfl (by decide)
      (Or.inr ⟨by decide, rfl⟩) rfl (by decide)⟩

/-- C7: in secondary mode, every operation other than `ApplyConfig` and
`StopAndWait` — `SaveAndApplyConfig`, `SaveAndApplyDefaultConfig`,
`GetStatus`, `CreateSilence`, `DeleteSilence`, `GetSilence`, `ListSilences`,
`GetAlerts`, `GetAlertGroups`, `PutAlerts`, `GetReceivers`, `TestReceivers`,
`TestTemplate`, `CleanUp` and `Ready` — invokes only the internal engine,
returns its result verbatim, and issues no call to the remote engine. -/
theorem RemoteSecondary_non_sync_ops_local_only :
    (∀ (fam : RemoteSecondaryForkedAlertmanager) (internal remote : EngineOracle)
        (config : PostableUserConfig),
      (fam.SaveAndApplyConfig internal remote config).val =
          internal.SaveAndApplyConfig config ∧
        (fam.SaveAndApplyConfig internal remote config).remoteCalls = [] ∧
        (fam.SaveAndApplyConfig internal remote config).internalCalls =
          [MethodCall.saveAndApplyConfig config]) ∧
    (∀ (fam : RemoteSecondaryForkedAlertmanager) (internal remote : EngineOracle),
      (fam.SaveAndApplyDefaultConfig internal remote).val =
          internal.SaveAndApplyDefaultConfig ∧
        (fam.SaveAndApplyDefaultConfig internal remote).remoteCalls = [] ∧
        (fam.SaveAndApplyDefaultConfig internal remote).internalCalls =
          [MethodCall.saveAndApplyDefaultConfig]) ∧
    (∀ (fam : RemoteSecondaryForkedAlertmanager) (internal remote : EngineOracle),
      (fam.GetStatus internal remote).val = internal.GetStatus ∧
        (fam.GetStatus internal remote).remoteCalls = [] ∧
        (fam.GetStatus internal remote).internalCalls = [MethodCall.getStatus]) ∧
    (∀ (fam : RemoteSecondaryForkedAlertmanager) (internal remote : EngineOracle)
        (silence : Option PostableSilence),
      (fam.CreateSilence internal remote silence).val = internal.CreateSilence silence ∧
        (fam.CreateSilence internal remote silence).remoteCalls = [] ∧
        (fam.CreateSilence internal remote silence).internalCalls =
          [MethodCall.createSilence silence]) ∧
    (∀ (fam : RemoteSecondaryForkedAlertmanager) (internal remote : EngineOracle)
        (id : String),
      (fam.DeleteSilence internal remote id).val = internal.DeleteSilence id ∧
        (fam.DeleteSilence internal remote id).remoteCalls = [] ∧
        (fam.DeleteSilence internal remote id).internalCalls =
          [MethodCall.deleteSilence id]) ∧
    (∀ (fam : RemoteSecondaryForkedAlertmanager) (internal remote : EngineOracle)
        (id : String),
      (fam.GetSilence internal remote id).val = internal.GetSilence id ∧
        (fam.GetSilence internal remote id).remoteCalls = [] ∧
        (fam.GetSilence internal remote id).internalCalls = [MethodCall.getSilence id]) ∧
    (∀ (fam : RemoteSecondaryForkedAlertmanager) (internal remote : EngineOracle)
        (filter : List String),
      (fam.ListSilences internal remote filter).val = internal.ListSilences filter ∧
        (fam.ListSilences internal remote filter).remoteCalls = [] ∧
        (fam.ListSilences internal remote filter).internalCalls =
          [MethodCall.listSilences filter]) ∧
    (∀ (fam : RemoteSecondaryForkedAlertmanager) (internal remote : EngineOracle)
        (active silenced inhibited : Bool) (filter : List String) (receiver : String),
      (fam.GetAlerts internal remote active silenced inhibited filter receiver).val =
          internal.GetAlerts active silenced inhibited filter receiver ∧
        (fam.GetAlerts internal remote active silenced inhibited filter
            receiver).remoteCalls = [] ∧
        (fam.GetAlerts internal remote active silenced inhibited filter
            receiver).internalCalls =
          [MethodCall.getAlerts active silenced inhibited filter receiver]) ∧
    (∀ (fam : RemoteSecondaryForkedAlertmanager) (internal remote : EngineOracle)
        (active silenced inhibited : Bool) (filter : List String) (receiver : String),
      (fam.GetAlertGroups internal remote active silenced inhibited filter
            receiver).val =
          internal.GetAlertGroups active silenced inhibited filter receiver ∧
        (fam.GetAlertGroups internal remote active silenced inhibited filter
            receiver).remoteCalls = [] ∧
        (fam.GetAlertGroups internal remote active silenced inhibited filter
            receiver).internalCalls =
          [MethodCall.getAlertGroups active silenced inhibited filter receiver]) ∧
    (∀ (fam : RemoteSecondaryForkedAlertmanager) (internal remote : EngineOracle)
        (alerts : PostableAlerts),
      (fam.PutAlerts internal remote alerts).val = internal.PutAlerts alerts ∧
        (fam.PutAlerts internal remote alerts).remoteCalls = [] ∧
        (fam.PutAlerts internal remote alerts).internalCalls =
          [MethodCall.putAlerts alerts]) ∧
    (∀ (fam : RemoteSecondaryForkedAlertmanager) (internal remote : EngineOracle),
      (fam.GetReceivers internal remote).val = internal.GetReceivers ∧
        (fam.GetReceivers internal remote).remoteCalls = [] ∧
        (fam.GetReceivers internal remote).internalCalls = [MethodCall.getReceivers]) ∧
    (∀ (fam : RemoteSecondaryForkedAlertmanager) (internal remote : EngineOracle)
        (c : TestReceiversConfigBodyParams),
      (fam.TestReceivers internal remote c).val = internal.TestReceivers c ∧
        (fam.TestReceivers internal remote c).remoteCalls = [] ∧
        (fam.TestReceivers internal remote c).internalCalls =
          [MethodCall.testReceivers c]) ∧
    (∀ (fam : RemoteSecondaryForkedAlertmanager) (internal remote : EngineOracle)
        (c : TestTemplatesConfigBodyParams),
      (fam.TestTemplate internal remote c).val = internal.TestTemplate c ∧
        (fam.TestTemplate internal remote c).remoteCalls = [] ∧
        (fam.TestTemplate internal remote c).internalCalls =
          [MethodCall.testTemplate c]) ∧
    (∀ (fam : RemoteSecondaryForkedAlertmanager) (internal remote : EngineOracle),
      (fam.CleanUp internal remote).remoteCalls = [] ∧
        (fam.CleanUp internal remote).internalCalls = [MethodCall.cleanUp]) ∧
    (∀ (fam : RemoteSecondaryForkedAlertmanager) (internal remote : EngineOracle),
      (fam.Ready internal remote).val = internal.Ready ∧
        (fam.Ready internal remote).remoteCalls = [] ∧
        (fam.Ready internal remote).internalCalls = [MethodCall.ready]) := by
  refine ⟨?_, ?_, ?_, ?_, ?_, ?_, ?_, ?_, ?_, ?_, ?_, ?_, ?_, ?_, ?_⟩ <;>
    intros <;> first | exact ⟨rfl, rfl, rfl⟩ | exact ⟨rfl, rfl⟩

/-- C6: in primary mode, every business operation (`GetStatus`,
`CreateSilence`, `DeleteSilence`, `GetSilence`, `ListSilences`, `GetAlerts`,
`GetAlertGroups`, `PutAlerts`, `GetReceivers`, `TestReceivers`,
`TestTemplate`, `SaveAndApplyConfig`, `SaveAndApplyDefaultConfig`,
`ApplyConfig`) is forwarded to the remote engine only with its result
returned verbatim and zero internal-engine calls, while `CleanUp` is
delegated to the internal engine only. -/
theorem RemotePrimary_business_ops_remote_only :
    (∀ (fam : RemotePrimaryForkedAlertmanager) (internal remote : EngineOracle),
      (fam.GetStatus internal remote).val = remote.GetStatus ∧
        (fam.GetStatus internal remote).internalCalls = [] ∧
        (fam.GetStatus internal remote).remoteCalls = [MethodCall.getStatus]) ∧
    (∀ (fam : RemotePrimaryForkedAlertmanager) (internal remote : EngineOracle)
        (silence : Option PostableSilence),
      (fam.CreateSilence internal remote silence).val = remote.CreateSilence silence ∧
        (fam.CreateSilence internal remote silence).internalCalls = [] ∧
        (fam.CreateSilence internal remote silence).remoteCalls =
          [MethodCall.createSilence silence]) ∧
    (∀ (fam : RemotePrimaryForkedAlertmanager) (internal remote : EngineOracle)
        (id : String),
      (fam.DeleteSilence internal remote id).val = remote.DeleteSilence id ∧
        (fam.DeleteSilence internal remote id).internalCalls = [] ∧
        (fam.DeleteSilence internal remote id).remoteCalls =
          [MethodCall.deleteSilence id]) ∧
    (∀ (fam : RemotePrimaryForkedAlertmanager) (internal remote : EngineOracle)
        (id : String),
      (fam.GetSilence internal remote id).val = remote.GetSilence id ∧
        (fam.GetSilence internal remote id).internalCalls = [] ∧
        (fam.GetSilence internal remote id).remoteCalls = [MethodCall.getSilence id]) ∧
    (∀ (fam : RemotePrimaryForkedAlertmanager) (internal remote : EngineOracle)
        (filter : List String),
      (fam.ListSilences internal remote filter).val = remote.ListSilences filter ∧
        (fam.ListSilences internal remote filter).internalCalls = [] ∧
        (fam.ListSilences internal remote filter).remoteCalls =
          [MethodCall.listSilences filter]) ∧
    (∀ (fam : RemotePrimaryForkedAlertmanager) (internal remote : EngineOracle)
        (active silenced inhibited : Bool) (filter : List String) (receiver : String),
      (fam.GetAlerts internal remote active silenced inhibited filter receiver).val =
          remote.GetAlerts active silenced inhibited filter receiver ∧
        (fam.GetAlerts internal remote active silenced inhibited filter
            receiver).internalCalls = [] ∧
        (fam.GetAlerts internal remote active silenced inhibited filter
            receiver).remoteCalls =
          [MethodCall.getAlerts active silenced inhibited filter receiver]) ∧
    (∀ (fam : RemotePrimaryForkedAlertmanager) (internal remote : EngineOracle)
        (active silenced inhibited : Bool) (filter : List String) (receiver : String),
      (fam.GetAlertGroups internal remote active silenced inhibited filter
            receiver).val =
          remote.GetAlertGroups active silenced inhibited filter receiver ∧
        (fam.GetAlertGroups internal remote active silenced inhibited filter
            receiver).internalCalls = [] ∧
        (fam.GetAlertGroups internal remote active silenced inhibited filter
            receiver).remoteCalls =
          [MethodCall.getAlertGroups active silenced inhibited filter receiver]) ∧
    (∀ (fam : RemotePrimaryForkedAlertmanager) (internal remote : EngineOracle)
        (alerts : PostableAlerts),
      (fam.PutAlerts internal remote alerts).val = remote.PutAlerts alerts ∧
        (fam.PutAlerts internal remote alerts).internalCalls = [] ∧
        (fam.PutAlerts internal remote alerts).remoteCalls =
          [MethodCall.putAlerts alerts]) ∧
    (∀ (fam : RemotePrimaryForkedAlertmanager) (internal remote : EngineOracle),
      (fam.GetReceivers internal remote).val = remote.GetReceivers ∧
        (fam.GetReceivers internal remote).internalCalls = [] ∧
        (fam.GetReceivers internal remote).remoteCalls = [MethodCall.getReceivers]) ∧
    (∀ (fam : RemotePrimaryForkedAlertmanager) (internal remote : EngineOracle)
        (c : TestReceiversConfigBodyParams),
      (fam.TestReceivers internal remote c).val = remote.TestReceivers c ∧
        (fam.TestReceivers internal remote c).internalCalls = [] ∧
        (fam.TestReceivers internal remote c).remoteCalls =
          [MethodCall.testReceivers c]) ∧
    (∀ (fam : RemotePrimaryForkedAlertmanager) (internal remote : EngineOracle)
        (c : TestTemplatesConfigBodyParams),
      (fam.TestTemplate internal remote c).val = remote.TestTemplate c ∧
        (fam.TestTemplate internal remote c).internalCalls = [] ∧
        (fam.TestTemplate internal remote c).remoteCalls =
          [MethodCall.testTemplate c]) ∧
    (∀ (fam : RemotePrimaryForkedAlertmanager) (internal remote : EngineOracle)
        (config : PostableUserConfig),
      (fam.SaveAndApplyConfig internal remote config).val =
          remote.SaveAndApplyConfig config ∧
        (fam.SaveAndApplyConfig internal remote config).internalCalls = [] ∧
        (fam.SaveAndApplyConfig internal remote config).remoteCalls =
          [MethodCall.saveAndApplyConfig config]) ∧
    (∀ (fam : RemotePrimaryForkedAlertmanager) (internal remote : EngineOracle),
      (fam.SaveAndApplyDefaultConfig internal remote).val =
          remote.SaveAndApplyDefaultConfig ∧
        (fam.SaveAndApplyDefaultConfig internal remote).internalCalls = [] ∧
        (fam.SaveAndApplyDefaultConfig internal remote).remoteCalls =
          [MethodCall.saveAndApplyDefaultConfig]) ∧
    (∀ (fam : RemotePrimaryForkedAlertmanager) (internal remote : EngineOracle)
        (config : AlertConfiguration),
      (fam.ApplyConfig internal remote config).val = remote.ApplyConfig config ∧
        (fam.ApplyConfig internal remote config).internalCalls = [] ∧
        (fam.ApplyConfig internal remote config).remoteCalls =
          [MethodCall.applyConfig config]) ∧
    (∀ (fam : RemotePrimaryForkedAlertmanager) (internal remote : EngineOracle),
      (fam.CleanUp internal remote).remoteCalls = [] ∧
        (fam.CleanUp internal remote).internalCalls = [MethodCall.cleanUp]) := by
  refine ⟨?_, ?_, ?_, ?_, ?_, ?_, ?_, ?_, ?_, ?_, ?_, ?_, ?_, ?_, ?_⟩ <;>
    intros <;> first | exact ⟨rfl, rfl, rfl⟩ | exact ⟨rfl, rfl⟩

/-- C8: the primary-mode coordinator's `Ready` returns true exactly when both
the internal and remote engines report ready. -/
theorem RemotePrimary_Ready_iff_both_ready
    (fam : RemotePrimaryForkedAlertmanager) (internal remote : EngineOracle) :
    (fam.Ready internal remote).val = true ↔
      (internal.Ready = true ∧ remote.Ready = true) := by
  simp [RemotePrimaryForkedAlertmanager.Ready]

/-- C9: `NewRemoteSecondaryForkedAlertmanager` fails with the descriptive
error exactly when the configured logger is nil, and otherwise returns a
coordinator carrying the configured logger, sync interval, the two engine
references, and the zero `lastSync`. -/
theorem NewRemoteSecondaryForkedAlertmanager_validates_logger
    (cfg : RemoteSecondaryConfig) (internal remote : EngineRef) :
    NewRemoteSecondaryForkedAlertmanager cfg internal remote =
      (if cfg.Logger = none then Except.error "logger cannot be nil"
        else Except.ok
          { log := cfg.Logger
            internal := internal
            remote := remote
            lastSync := 0
            syncInterval := cfg.SyncInterval }) := by
  unfold NewRemoteSecondaryForkedAlertmanager RemoteSecondaryConfig.Validate
  by_cases h : cfg.Logger = none <;> simp [h]

/-- C10: in secondary mode, `lastSync` is mutated only inside `ApplyConfig`'s
remote-sync routine: every other operation — including `StopAndWait` and
`Ready` — leaves the coordinator's whole state (`lastSync`, `syncInterval`,
the logger and both engine references) unchanged, and even `ApplyConfig`
changes at most the `lastSync` field. -/
theorem RemoteSecondary_lastSync_only_mutated_by_ApplyConfig :
    (∀ (fam : RemoteSecondaryForkedAlertmanager) (internal remote : EngineOracle)
        (config : PostableUserConfig),
      (fam.SaveAndApplyConfig internal remote config).fam2 = fam) ∧
    (∀ (fam : RemoteSecondaryForkedAlertmanager) (internal remote : EngineOracle),
      (fam.SaveAndApplyDefaultConfig internal remote).fam2 = fam) ∧
    (∀ (fam : RemoteSecondaryForkedAlertmanager) (internal remote : EngineOracle),
      (fam.GetStatus internal remote).fam2 = fam) ∧
    (∀ (fam : RemoteSecondaryForkedAlertmanager) (internal remote : EngineOracle)
        (silence : Option PostableSilence),
      (fam.CreateSilence internal remote silence).fam2 = fam) ∧
    (∀ (fam : RemoteSecondaryForkedAlertmanager) (internal remote : EngineOracle)
        (id : String),
      (fam.DeleteSilence internal remote id).fam2 = fam) ∧
    (∀ (fam : RemoteSecondaryForkedAlertmanager) (internal remote : EngineOracle)
        (id : String),
      (fam.GetSilence internal remote id).fam2 = fam) ∧
    (∀ (fam : RemoteSecondaryForkedAlertmanager) (internal remote : EngineOracle)
        (filter : List String),
      (fam.ListSilences internal remote filter).fam2 = fam) ∧
    (∀ (fam : RemoteSecondaryForkedAlertmanager) (internal remote : EngineOracle)
        (active silenced inhibited : Bool) (filter : List String) (receiver : String),
      (fam.GetAlerts internal remote active silenced inhibited filter receiver).fam2 =
        fam) ∧
    (∀ (fam : RemoteSecondaryForkedAlertmanager) (internal remote : EngineOracle)
        (active silenced inhibited : Bool) (filter : List String) (receiver : String),
      (fam.GetAlertGroups internal remote active silenced inhibited filter
          receiver).fam2 = fam) ∧
    (∀ (fam : RemoteSecondaryForkedAlertmanager) (internal remote : EngineOracle)
        (alerts : PostableAlerts),
      (fam.PutAlerts internal remote alerts).fam2 = fam) ∧
    (∀ (fam : RemoteSecondaryForkedAlertmanager) (internal remote : EngineOracle),
      (fam.GetReceivers internal remote).fam2 = fam) ∧
    (∀ (fam : RemoteSecondaryForkedAlertmanager) (internal remote : EngineOracle)
        (c : TestReceiversConfigBodyParams),
      (fam.TestReceivers internal remote c).fam2 = fam) ∧
    (∀ (fam : RemoteSecondaryForkedAlertmanager) (internal remote : EngineOracle)
        (c : TestTemplatesConfigBodyParams),
      (fam.TestTemplate internal remote c).fam2 = fam) ∧
    (∀ (fam : RemoteSecondaryForkedAlertmanager) (internal remote : EngineOracle),
      (fam.CleanUp internal remote).fam2 = fam) ∧
    (∀ (fam : RemoteSecondaryForkedAlertmanager) (internal remote : EngineOracle),
      (fam.StopAndWait internal remote).fam2 = fam) ∧
    (∀ (fam : RemoteSecondaryForkedAlertmanager) (internal remote : EngineOracle),
      (fam.Ready internal remote).fam2 = fam) ∧
    (∀ (fam : RemoteSecondaryForkedAlertmanager) (internal remote : EngineOracle)
        (now : Int) (config : AlertConfiguration),
      (fam.ApplyConfig internal remote now config).fam2 =
        { fam with
            lastSync := (fam.ApplyConfig internal remote now config).fam2.lastSync }) := by
  refine ⟨?_, ?_, ?_, ?_, ?_, ?_, ?_, ?_, ?_, ?_, ?_, ?_, ?_, ?_, ?_, ?_, ?_⟩
  case _ => intros; rfl
  case _ => intros; rfl
  case _ => intros; rfl
  case _ => intros; rfl
  case _ => intros; rfl
  case _ => intros; rfl
  case _ => intros; rfl
  case _ => intros; rfl
  case _ => intros; rfl
  case _ => intros; rfl
  case _ => intros; rfl
  case _ => intros; rfl
  case _ => intros; rfl
  case _ => intros; rfl
  case _ => intros; rfl
  case _ => intros; rfl
  case _ =>
    intro fam internal remote now config
    unfold RemoteSecondaryForkedAlertmanager.ApplyConfig
    cases hr : remote.Ready
    · cases hac : remote.ApplyConfig config <;> simp [hac]
    · by_cases hd : fam.syncInterval ≤ now - fam.lastSync
      · by_cases hb : (remote.CompareAndSendConfiguration config = none ∧
            remote.CompareAndSendState = none) <;> simp [hd, hb]
      · simp [hd]
